import Mathlib

/-!
Shallow embedding of the ulbra-mcp server core (the MCP server script):
the authentication-token cache (`getAuthToken`), the backend request layer
(`makeBackendRequest`, modelled by its two observable outcomes), the two
search operations (`searchProducts`, `vectorSearchProducts`) and the
tool-call dispatch handler.

Modelling conventions:
* JavaScript values that the code may find `undefined`/`null` are modelled
  as `Option`; a field absent from an object literal is `none`.
* JS truthiness defaulting (`x || d`) is modelled by the explicit helpers
  `qOr`, `natOr`, `simOrNull` (0 and `undefined`/`null` are falsy).
* JSON numbers are modelled as `ℚ` (the code never does arithmetic on
  them, only passes them through and tests them against `0`); the backend
  counts (`totalFound`, list lengths) as `ℕ`; timestamps as `ℕ` (ms).
* Backend responses follow the documented upstream interface, with
  `Option` exactly where the code itself guards against absence
  (`=== 0` tests, `|| defaults`) or where a response body may omit a
  field the code reads without guarding (`response.data.token`).
* The backend is an oracle (`Backend`): each endpoint either raises
  (with the distinguished exception the request layer wraps it in) or
  returns a typed body.  The search operations also return the trace of
  upstream backend-client calls they issued, in order.
-/

namespace Ulbra

/-- JS truthiness defaulting for an optional rational JSON number: `x || d`
(`undefined`, `null` and `0` are falsy). -/
def qOr (x : Option ℚ) (d : ℚ) : ℚ :=
  match x with
  | some v => if v = 0 then d else v
  | none => d

/-- JS truthiness defaulting for an optional natural JSON count: `x || d`. -/
def natOr (x : Option ℕ) (d : ℕ) : ℕ :=
  match x with
  | some v => if v = 0 then d else v
  | none => d

/-- JS `x || null` on an optional number (used for `similarity`):
a falsy value (absent, or 0) collapses to `null`; `none` stands for
`null`/absent. -/
def simOrNull (x : Option ℚ) : Option ℚ :=
  match x with
  | some v => if v = 0 then none else some v
  | none => none

/-- A product object exactly as the search code reads it: the union of all
keys either mapping in the code ever accesses.  Backend products carry
`priceEstimated`; the intermediate objects built by the literal-fallback
branch carry `estimatedPrice` instead.  `none` = key absent / value
`undefined`. -/
structure JProd where
  code : Option ℚ := none
  name : Option String := none
  unit : Option String := none
  priceEstimated : Option ℚ := none
  estimatedPrice : Option ℚ := none
  description : Option String := none
  type : Option String := none
  family : Option String := none
  similarity : Option ℚ := none
deriving DecidableEq

/-- The normalized product shape produced by the final mapping in both
search operations.  Note the structure has no `priceEstimated` field: the
object literal in the code has exactly these keys. -/
structure Product where
  code : Option ℚ
  name : Option String
  unit : Option String
  estimatedPrice : Option ℚ
  description : Option String
  type : Option String
  family : Option String
  similarity : Option ℚ
deriving DecidableEq

/-- Opaque diagnostic object the vector endpoint may attach; forwarded,
never inspected. -/
structure CacheInfo where
  hit : Bool
  size : ℕ
deriving DecidableEq

/-- Decoded JSON body of the vector-search endpoint.  `success` is read
only for truthiness, so it is a `Bool`; the other fields are read through
truthiness/strict-equality guards, so absence is representable. -/
structure VectorResp where
  success : Bool
  totalFound : Option ℕ
  threshold : Option ℚ
  products : Option (List JProd)
  cacheInfo : Option CacheInfo
deriving DecidableEq

/-- The two ways a backend-client call (`makeBackendRequest`) can raise:
the token exchange failed before the GET was issued, or the GET itself
failed with some axios message. -/
inductive BackendFailure where
  | auth
  | transport (msg : String)
deriving DecidableEq

/-- Message of the `Error` that `makeBackendRequest` throws in each case
(`getAuthToken` throws the fixed auth message; a failed GET is wrapped
with the `Backend request failed: ` prefix). -/
def requestError : BackendFailure → String
  | .auth => "Failed to authenticate with backend"
  | .transport m => "Backend request failed: " ++ m

/-- Oracle for the upstream backend as seen through the backend client:
each endpoint, given the query parameters the code sends, either raises
or returns a decoded body. -/
structure Backend where
  vectorSearch : String → ℕ → Option ℚ → Except BackendFailure VectorResp
  listProducts : String → ℕ → Except BackendFailure (List JProd)

/-- One upstream backend-client call, with the parameters the code sends:
the vector-search GET (threshold present only on the vectorSearch
operation) or the literal listing GET. -/
inductive UpCall where
  | vector (query : String) (limit : ℕ) (threshold : Option ℚ)
  | literal (search : String) (limit : ℕ)
deriving DecidableEq

/-- Is this trace entry a vector-search call? -/
def UpCall.isVector : UpCall → Bool
  | .vector .. => true
  | .literal .. => false

/-- The result object both search operations return.  Every return object
literal in the code has the `success`, `query`, `totalFound` and
`products` keys; `threshold`, `cacheInfo` and `error` appear only on some
paths (`none` = key absent). -/
structure SearchResult where
  success : Bool
  query : String
  totalFound : ℕ
  products : List Product
  threshold : Option ℚ := none
  cacheInfo : Option CacheInfo := none
  error : Option String := none
deriving DecidableEq

/-- The object literal the literal-fallback branch builds from each raw
backend product: keys `code, name, unit, estimatedPrice, description,
type, family`, with `estimatedPrice` taking the backend `priceEstimated`
value.  It has no `priceEstimated` and no `similarity` key. -/
def fallbackMap (p : JProd) : JProd :=
  { code := p.code, name := p.name, unit := p.unit,
    priceEstimated := none,
    estimatedPrice := p.priceEstimated,
    description := p.description, type := p.type, family := p.family,
    similarity := none }

/-- The object literal of the final product mapping (shared by the tail of
`searchProducts` and by `vectorSearchProducts`): it reads `priceEstimated`
from its input and writes `estimatedPrice`, and applies `|| null` to
`similarity`. -/
def finalMap (p : JProd) : Product :=
  { code := p.code, name := p.name, unit := p.unit,
    estimatedPrice := p.priceEstimated,
    description := p.description, type := p.type, family := p.family,
    similarity := simOrNull p.similarity }

/-- The failure envelope both operations return from their catch block. -/
def failEnvelope (query msg : String) : SearchResult :=
  { success := false, query := query, totalFound := 0, products := [],
    error := some msg }

/-- The fallback trigger of `searchProducts`:
`!results.success || results.totalFound === 0` (strict equality with the
number 0). -/
def fallbackCond (r : VectorResp) : Bool :=
  !r.success || r.totalFound == some 0

/-- The final return of `searchProducts` (applied to whatever object the
`results` variable holds): hard-codes `success: true`, defaults
`totalFound` and `products` by truthiness, and runs the final product
mapping. -/
def finishSearch (query : String) (results : VectorResp) : SearchResult :=
  { success := true, query := query,
    totalFound := natOr results.totalFound 0,
    products := (results.products.getD []).map finalMap }

/-- `searchProducts(query, limit)` (the `products.search` operation):
tries the vector-search endpoint once; if that raises, the catch block
returns the failure envelope (no fallback); if it answers with falsy
`success` or `totalFound === 0`, issues the literal listing call and, when
that returns a non-empty array, replaces `results` with the
fallback-mapped object; finally normalizes `results`.  Also returns the
ordered trace of backend-client calls issued. -/
def searchProducts (b : Backend) (query : String) (limit : ℕ) :
    SearchResult × List UpCall :=
  match b.vectorSearch query limit none with
  | .error f =>
      (failEnvelope query (requestError f), [.vector query limit none])
  | .ok results =>
      if fallbackCond results then
        match b.listProducts query limit with
        | .error f =>
            (failEnvelope query (requestError f),
             [.vector query limit none, .literal query limit])
        | .ok nameResults =>
            let results2 : VectorResp :=
              if nameResults.length > 0 then
                { success := true, totalFound := some nameResults.length,
                  threshold := none,
                  products := some (nameResults.map fallbackMap),
                  cacheInfo := none }
              else results
            (finishSearch query results2,
             [.vector query limit none, .literal query limit])
      else
        (finishSearch query results, [.vector query limit none])

/-- `vectorSearchProducts(query, limit, threshold)` (the
`products.vectorSearch` operation): one vector-search call with the
threshold parameter; passes `success` through, defaults `totalFound` and
`threshold` by truthiness (`results.threshold || threshold`), maps the
products, and forwards `cacheInfo || null`; the catch block returns the
failure envelope. -/
def vectorSearchProducts (b : Backend) (query : String) (limit : ℕ)
    (threshold : ℚ) : SearchResult × List UpCall :=
  match b.vectorSearch query limit (some threshold) with
  | .error f =>
      (failEnvelope query (requestError f),
       [.vector query limit (some threshold)])
  | .ok results =>
      ({ success := results.success, query := query,
         totalFound := natOr results.totalFound 0,
         threshold := some (qOr results.threshold threshold),
         products := (results.products.getD []).map finalMap,
         cacheInfo := results.cacheInfo },
       [.vector query limit (some threshold)])

/-- The module-global token cache: `authToken` (`null` or the string the
login body carried, possibly `undefined`, modelled as absent) and
`tokenExpiry` (`null` or a ms timestamp). -/
structure AuthState where
  authToken : Option String
  tokenExpiry : Option ℕ
deriving DecidableEq

/-- The cache-hit guard `authToken && tokenExpiry && Date.now() < tokenExpiry`:
all three conjuncts are truthiness tests (an empty-string token and a zero
expiry are falsy). -/
def cacheHit (s : AuthState) (now : ℕ) : Bool :=
  match s.authToken, s.tokenExpiry with
  | some t, some e => decide (t ≠ "") && decide (e ≠ 0) && decide (now < e)
  | _, _ => false

/-- 23 hours in milliseconds: the expiry the code stores after a login. -/
def tokenValidityMs : ℕ := 82800000

/-- `getAuthToken()` with the state passed explicitly.  `login` is the
oracle for the `POST /login` exchange: it raises, or returns
`response.data.token` (which the code reads without checking, so a 2xx
body may omit it).  Returns the JS result (the token value or the thrown
auth error), the new cache state, and the number of login exchanges
performed (0 or 1). -/
def getAuthToken (login : Except Unit (Option String)) (now : ℕ)
    (s : AuthState) : Except Unit (Option String) × AuthState × ℕ :=
  if cacheHit s now then
    (Except.ok s.authToken, s, 0)
  else
    match login with
    | Except.ok tok =>
        (Except.ok tok, ⟨tok, some (now + tokenValidityMs)⟩, 1)
    | Except.error _ => (Except.error (), s, 1)

/-- The JSON object serialized into the tool-call output: the union of the
keys any branch of the handler can emit (`none` = key absent after
`JSON.stringify` drops `undefined`). -/
structure Payload where
  success : Bool
  query : Option String := none
  totalFound : Option ℕ := none
  products : Option (List Product) := none
  threshold : Option ℚ := none
  cacheInfo : Option CacheInfo := none
  error : Option String := none
deriving DecidableEq

/-- Serializing a `SearchResult` keeps every present key. -/
def SearchResult.toPayload (r : SearchResult) : Payload :=
  { success := r.success, query := some r.query,
    totalFound := some r.totalFound, products := some r.products,
    threshold := r.threshold, cacheInfo := r.cacheInfo, error := r.error }

/-- The object the catch block of the handler serializes:
`{ success: false, error: message }` and nothing else. -/
def errPayload (msg : String) : Payload :=
  { success := false, error := some msg }

/-- An incoming tool call: the tool name and the arguments the declared
schemas admit (`query` is required by both schemas; `limit` and
`threshold` default through destructuring when absent). -/
structure ToolRequest where
  name : String
  query : String
  limit : Option ℕ := none
  threshold : Option ℚ := none

/-- The transport envelope the handler returns: the serialized payload and
the `isError` flag (present only on the catch path). -/
structure ToolResponse where
  payload : Payload
  isError : Bool
deriving DecidableEq

/-- The `CallToolRequestSchema` handler: dispatches on the tool name with
destructuring defaults `limit = 10`, `threshold = 0.7`; an unrecognized
name throws `Unknown tool: <name>`, which the catch block of the handler
re-encodes as an error-flagged payload.  The function is total: no branch
escapes the handler. -/
def handleToolCall (b : Backend) (req : ToolRequest) : ToolResponse :=
  if req.name = "products.search" then
    { payload := ((searchProducts b req.query (req.limit.getD 10)).1).toPayload,
      isError := false }
  else if req.name = "products.vectorSearch" then
    { payload := ((vectorSearchProducts b req.query (req.limit.getD 10)
        (req.threshold.getD (7 / 10))).1).toPayload,
      isError := false }
  else
    { payload := errPayload ("Unknown tool: " ++ req.name), isError := true }

/-- The SearchResult shape keys the external contract requires on every
payload: `query`, `totalFound` and `products` present (`success` is a
`Bool` and `totalFound` a `ℕ` by construction). -/
def wellFormedPayload (p : Payload) : Prop :=
  p.query.isSome = true ∧ p.totalFound.isSome = true ∧
    p.products.isSome = true

/-- A backend stub on which every HTTP attempt raises a transport error. -/
def bFail : Backend :=
  { vectorSearch := fun _ _ _ => .error (.transport "ECONNREFUSED"),
    listProducts := fun _ _ => .error (.transport "ECONNREFUSED") }

/-- A backend whose vector endpoint reports no usable result and whose
literal listing returns the stub product
`{code: 12345, name: "X", unit: "UN", priceEstimated: 2.5}`. -/
def bFallback : Backend :=
  { vectorSearch := fun _ _ _ => .ok
      { success := false, totalFound := none, threshold := none,
        products := none, cacheInfo := none },
    listProducts := fun _ _ => .ok
      [{ code := some 12345, name := some "X", unit := some "UN",
         priceEstimated := some (5 / 2) }] }

/-- A backend whose vector endpoint answers with one product carrying
`priceEstimated: 2.5` (so the vector path is taken). -/
def bVecPrice : Backend :=
  { vectorSearch := fun _ _ _ => .ok
      { success := true, totalFound := some 1, threshold := none,
        products := some
          [{ code := some 12345, name := some "X", unit := some "UN",
             priceEstimated := some (5 / 2) }],
        cacheInfo := none },
    listProducts := fun _ _ => .ok [] }

/-- A backend whose vector endpoint reports an explicit `threshold: 0`. -/
def bThreshZero : Backend :=
  { vectorSearch := fun _ _ _ => .ok
      { success := true, totalFound := some 1, threshold := some 0,
        products := some [], cacheInfo := none },
    listProducts := fun _ _ => .ok [] }

/-- A backend whose vector endpoint returns two products even when asked
for fewer. -/
def bOverLimit : Backend :=
  { vectorSearch := fun _ _ _ => .ok
      { success := true, totalFound := some 2, threshold := none,
        products := some [{}, {}], cacheInfo := none },
    listProducts := fun _ _ => .ok [] }

/-- A backend whose vector endpoint reports `success: false` and whose
literal listing returns an empty array. -/
def bNoResults : Backend :=
  { vectorSearch := fun _ _ _ => .ok
      { success := false, totalFound := some 0, threshold := none,
        products := none, cacheInfo := none },
    listProducts := fun _ _ => .ok [] }

/-- A backend whose vector endpoint reports a fully-populated diagnostic
response. -/
def bDiag : Backend :=
  { vectorSearch := fun _ _ _ => .ok
      { success := true, totalFound := some 2, threshold := some (1 / 2),
        products := some [], cacheInfo := some ⟨true, 5⟩ },
    listProducts := fun _ _ => .ok [] }

/-- Both exception messages the request layer can produce are non-empty. -/
theorem requestError_ne_empty (f : BackendFailure) : requestError f ≠ "" := by
  cases f with
  | auth => decide
  | transport m =>
      cases m with
      | mk data =>
          intro h
          have h2 : "Backend request failed: ".data ++ data = [] :=
            congrArg String.data h
          rcases List.append_eq_nil.mp h2 with ⟨h3, -⟩
          exact absurd h3 (by decide)

/-- A `searchProducts` result with `success = false` is the catch-block
failure envelope for some raised request error. -/
theorem searchProducts_false_is_envelope (b : Backend) (q : String) (l : ℕ)
    (h : (searchProducts b q l).1.success = false) :
    ∃ f, (searchProducts b q l).1 = failEnvelope q (requestError f) := by
  unfold searchProducts at h ⊢
  cases hv : b.vectorSearch q l none with
  | error f => exact ⟨f, rfl⟩
  | ok r =>
      rw [hv] at h
      by_cases hc : fallbackCond r = true
      · cases hl : b.listProducts q l with
        | error f => exact ⟨f, by simp [hc, hl]⟩
        | ok ps => simp [hc, hl, finishSearch] at h
      · simp [hc, finishSearch] at h

/-- C1 (amended): `searchProducts` issues the vector-search call exactly
once, issues at most two upstream calls in total, and issues the literal
fallback call if and only if the vector-search call returns (does not
raise) with falsy `success` or with `totalFound === 0`.  When the
vector-search call raises, no fallback call is issued: the catch block
returns the failure envelope directly. -/
theorem searchCallPolicy (b : Backend) (q : String) (l : ℕ) :
    (searchProducts b q l).2.filter UpCall.isVector =
      [UpCall.vector q l none] ∧
    (searchProducts b q l).2.length ≤ 2 ∧
    (UpCall.literal q l ∈ (searchProducts b q l).2 ↔
      ∃ r, b.vectorSearch q l none = Except.ok r ∧ fallbackCond r = true) := by
  unfold searchProducts
  cases hv : b.vectorSearch q l none with
  | error f =>
      refine ⟨by simp [List.filter, UpCall.isVector], by simp, ?_⟩
      simp [hv]
  | ok r =>
      by_cases hc : fallbackCond r = true
      · cases hl : b.listProducts q l with
        | error f =>
            refine ⟨by simp [hc, List.filter, UpCall.isVector], by simp [hc], ?_⟩
            simp only [hc, if_true]
            constructor
            · intro _; exact ⟨r, rfl, hc⟩
            · intro _; simp
        | ok ps =>
            refine ⟨by simp [hc, List.filter, UpCall.isVector], by simp [hc], ?_⟩
            simp only [hc, if_true]
            constructor
            · intro _; exact ⟨r, rfl, hc⟩
            · intro _; simp
      · refine ⟨by simp [hc, List.filter, UpCall.isVector], by simp [hc], ?_⟩
        simp only [hc, if_false]
        constructor
        · intro hmem; simp at hmem
        · rintro ⟨r2, hr2, hc2⟩
          rw [Except.ok.injEq] at hr2
          exact absurd (hr2 ▸ hc2) hc

/-- C1 counterexample: on a backend whose vector-search call raises, the
claim as stated demands the literal fallback call, but `searchProducts`
issues no fallback call at all (its trace is the single vector call). -/
theorem searchNoFallbackOnRaise :
    bFail.vectorSearch "seringa" 10 none =
      Except.error (BackendFailure.transport "ECONNREFUSED") ∧
    (searchProducts bFail "seringa" 10).2 =
      [UpCall.vector "seringa" 10 none] ∧
    UpCall.literal "seringa" 10 ∉ (searchProducts bFail "seringa" 10).2 :=
  ⟨rfl, rfl, by decide⟩

/-- C2: neither search operation lets an exception escape: whenever any
executed HTTP attempt raises (the vector attempt of either operation, or
the fallback attempt of `searchProducts`), the operation returns the
failure envelope `{success: false, error: message, query, totalFound: 0,
products: []}`, and every such message is non-empty. -/
theorem searchNeverRaises (b : Backend) (q : String) (l : ℕ) (t : ℚ) :
    (∀ f, b.vectorSearch q l none = Except.error f →
      (searchProducts b q l).1 = failEnvelope q (requestError f)) ∧
    (∀ r f, b.vectorSearch q l none = Except.ok r → fallbackCond r = true →
      b.listProducts q l = Except.error f →
      (searchProducts b q l).1 = failEnvelope q (requestError f)) ∧
    (∀ f, b.vectorSearch q l (some t) = Except.error f →
      (vectorSearchProducts b q l t).1 = failEnvelope q (requestError f)) ∧
    (∀ f, requestError f ≠ "") := by
  refine ⟨?_, ?_, ?_, requestError_ne_empty⟩
  · intro f hf
    unfold searchProducts
    rw [hf]
  · intro r f hr hc hl
    unfold searchProducts
    rw [hr]
    simp [hc, hl]
  · intro f hf
    unfold vectorSearchProducts
    rw [hf]

/-- C2 witness: on the always-raising transport stub, both operations
return exactly the failure envelope with the non-empty wrapped message. -/
theorem searchNeverRaises_witness :
    (searchProducts bFail "seringa" 10).1 =
      failEnvelope "seringa" "Backend request failed: ECONNREFUSED" ∧
    (vectorSearchProducts bFail "seringa" 10 (7 / 10)).1 =
      failEnvelope "seringa" "Backend request failed: ECONNREFUSED" ∧
    requestError (BackendFailure.transport "ECONNREFUSED") ≠ "" :=
  ⟨(searchNeverRaises bFail "seringa" 10 (7 / 10)).1
      (BackendFailure.transport "ECONNREFUSED") rfl,
   (searchNeverRaises bFail "seringa" 10 (7 / 10)).2.2.1
      (BackendFailure.transport "ECONNREFUSED") rfl,
   (searchNeverRaises bFail "seringa" 10 (7 / 10)).2.2.2
      (BackendFailure.transport "ECONNREFUSED")⟩

/-- C10: whenever `searchProducts` completes without an exception (the
vector attempt returns, and the fallback attempt, when triggered,
returns), the result has `success = true` — the final return hard-codes
it, regardless of what the vector response reported and of whether the
fallback found anything. -/
theorem literalSearchAlwaysSucceeds (b : Backend) (q : String) (l : ℕ)
    (r : VectorResp)
    (hv : b.vectorSearch q l none = Except.ok r)
    (hl : fallbackCond r = true → ∃ ps, b.listProducts q l = Except.ok ps) :
    (searchProducts b q l).1.success = true := by
  unfold searchProducts
  rw [hv]
  by_cases hc : fallbackCond r = true
  · obtain ⟨ps, hps⟩ := hl hc
    simp [hc, hps, finishSearch]
  · simp [hc, finishSearch]

/-- C10 witness: a vector response with `success: false` followed by an
empty literal listing still yields `success = true`. -/
theorem literalSearchAlwaysSucceeds_witness :
    (searchProducts bNoResults "seringa" 10).1.success = true :=
  literalSearchAlwaysSucceeds bNoResults "seringa" 10
    { success := false, totalFound := some 0, threshold := none,
      products := none, cacheInfo := none }
    rfl (fun _ => ⟨[], rfl⟩)

/-- C3 (amended): payloads produced by dispatching the two declared
operations always carry the `query`, `totalFound` and `products` keys
(with `success : Bool` and `totalFound : ℕ` by construction), and a
`products.search` payload with `success = false` carries a non-empty
`error` string; the gateway-level error wrapping, however, produces only
`{success: false, error: message}` — without `query`, `totalFound` or
`products`. -/
theorem gatewayPayloadShape (b : Backend) (req : ToolRequest) :
    ((req.name = "products.search" ∨ req.name = "products.vectorSearch") →
      wellFormedPayload (handleToolCall b req).payload) ∧
    (req.name = "products.search" →
      (handleToolCall b req).payload.success = false →
      ∃ m, (handleToolCall b req).payload.error = some m ∧ m ≠ "") ∧
    (req.name ≠ "products.search" → req.name ≠ "products.vectorSearch" →
      (handleToolCall b req).payload =
        errPayload ("Unknown tool: " ++ req.name) ∧
      (handleToolCall b req).payload.query = none ∧
      (handleToolCall b req).payload.totalFound = none ∧
      (handleToolCall b req).payload.products = none) := by
  by_cases h1 : req.name = "products.search"
  · refine ⟨fun _ => ?_, fun _ hfalse => ?_, fun hno _ => absurd h1 hno⟩
    · simp [handleToolCall, h1, SearchResult.toPayload, wellFormedPayload]
    · rw [handleToolCall, if_pos h1] at hfalse ⊢
      obtain ⟨f, hf⟩ := searchProducts_false_is_envelope b req.query
        (req.limit.getD 10) hfalse
      refine ⟨requestError f, ?_, requestError_ne_empty f⟩
      simp [SearchResult.toPayload, hf, failEnvelope]
  · by_cases h2 : req.name = "products.vectorSearch"
    · refine ⟨fun _ => ?_, fun hs => absurd hs h1, fun _ hno => absurd h2 hno⟩
      simp [handleToolCall, h1, h2, SearchResult.toPayload, wellFormedPayload]
    · refine ⟨fun hor => ?_, fun hs => absurd hs h1, fun _ _ => ?_⟩
      · rcases hor with hs | hs
        · exact absurd hs h1
        · exact absurd hs h2
      · rw [handleToolCall, if_neg h1, if_neg h2]
        exact ⟨rfl, rfl, rfl, rfl⟩

/-- C3 witness: a dispatched `products.search` call (here against the
always-raising stub, i.e. on the failure path) still yields a payload
with `query`, `totalFound` and `products` present. -/
theorem gatewayPayloadShape_witness :
    wellFormedPayload
      (handleToolCall bFail ⟨"products.search", "seringa", none, none⟩).payload :=
  (gatewayPayloadShape bFail ⟨"products.search", "seringa", none, none⟩).1
    (Or.inl rfl)

/-- C3 counterexample: dispatching the unknown operation
`products.unknown` returns a payload with no `query`, no `totalFound` and
no `products` key — not a well-formed SearchResult, contradicting the
claim for the gateway-level error wrapping path. -/
theorem unknownToolPayloadNotSearchResult :
    (handleToolCall bFail ⟨"products.unknown", "x", none, none⟩).payload.query
        = none ∧
    (handleToolCall bFail
        ⟨"products.unknown", "x", none, none⟩).payload.totalFound = none ∧
    (handleToolCall bFail
        ⟨"products.unknown", "x", none, none⟩).payload.products = none ∧
    ¬ wellFormedPayload
        (handleToolCall bFail ⟨"products.unknown", "x", none, none⟩).payload := by
  refine ⟨rfl, rfl, rfl, ?_⟩
  intro h
  obtain ⟨h1, -, -⟩ := h
  exact absurd h1 (by decide)

/-- C4 (amended): `getAuthToken` serves the cached token without a login
exchange whenever the cached token is truthy (non-empty) and
`now < tokenExpiry`; on a cache miss a successful login stores the
returned token with expiry `now + 23h` and performs exactly one exchange;
whenever a token is served, `now` is strictly below the stored expiry (an
expired token is never served); and two sequential calls within the
validity window of a non-empty stored token perform no second exchange. -/
theorem getTokenCachePolicy (lg : Except Unit (Option String)) (now : ℕ)
    (s : AuthState) :
    (cacheHit s now = true →
      getAuthToken lg now s = (Except.ok s.authToken, s, 0)) ∧
    (cacheHit s now = false → ∀ tok, lg = Except.ok tok →
      getAuthToken lg now s =
        (Except.ok tok, ⟨tok, some (now + tokenValidityMs)⟩, 1)) ∧
    ((getAuthToken lg now s).1.isOk = true →
      ∃ e, (getAuthToken lg now s).2.1.tokenExpiry = some e ∧ now < e) ∧
    (∀ tok now2, tok ≠ "" → now2 < now + tokenValidityMs →
      (getAuthToken lg now2
        (getAuthToken (Except.ok (some tok)) now ⟨none, none⟩).2.1).2.2 = 0) := by
  refine ⟨?_, ?_, ?_, ?_⟩
  · intro hc
    simp [getAuthToken, hc]
  · intro hc tok hlg
    simp [getAuthToken, hc, hlg]
  · intro hok
    unfold getAuthToken at hok ⊢
    by_cases hc : cacheHit s now = true
    · simp only [hc, if_true]
      obtain ⟨a, e, ha, he, hval⟩ :
          ∃ a e, s.authToken = some a ∧ s.tokenExpiry = some e ∧
            (decide (a ≠ "") && decide (e ≠ 0) && decide (now < e)) = true := by
        unfold cacheHit at hc
        cases hat : s.authToken with
        | none => rw [hat] at hc; simp at hc
        | some a =>
            cases het : s.tokenExpiry with
            | none => rw [hat, het] at hc; simp at hc
            | some e => rw [hat, het] at hc; exact ⟨a, e, rfl, rfl, hc⟩
      simp only [Bool.and_eq_true, decide_eq_true_eq] at hval
      exact ⟨e, he, hval.2⟩
    · simp only [hc, if_false, Bool.false_eq_true] at hok ⊢
      cases hlg : lg with
      | ok tok =>
          refine ⟨now + tokenValidityMs, by simp, ?_⟩
          unfold tokenValidityMs
          omega
      | error u =>
          rw [hlg] at hok
          simp [Except.isOk, Except.toBool] at hok
  · intro tok now2 htok h2
    have hmiss : cacheHit (⟨none, none⟩ : AuthState) now = false := rfl
    have hfirst : (getAuthToken (Except.ok (some tok)) now ⟨none, none⟩).2.1 =
        ⟨some tok, some (now + tokenValidityMs)⟩ := by
      simp [getAuthToken, hmiss]
    rw [hfirst]
    have hhit : cacheHit ⟨some tok, some (now + tokenValidityMs)⟩ now2 = true := by
      unfold cacheHit
      simp only [Bool.and_eq_true, decide_eq_true_eq]
      refine ⟨⟨htok, ?_⟩, h2⟩
      unfold tokenValidityMs
      omega
    simp [getAuthToken, hhit]

/-- C4 witness: a cold-cache call performs one exchange and stores the
23-hour expiry; a second call 50 ms later (within the window, non-empty
token) performs none. -/
theorem getTokenCachePolicy_witness :
    getAuthToken (Except.ok (some "tok")) 0 ⟨none, none⟩ =
      (Except.ok (some "tok"), ⟨some "tok", some (0 + tokenValidityMs)⟩, 1) ∧
    (getAuthToken (Except.error ()) 50
      (getAuthToken (Except.ok (some "tok")) 0 ⟨none, none⟩).2.1).2.2 = 0 :=
  ⟨(getTokenCachePolicy (Except.ok (some "tok")) 0 ⟨none, none⟩).2.1 rfl
      (some "tok") rfl,
   (getTokenCachePolicy (Except.error ()) 0 ⟨none, none⟩).2.2.2 "tok" 50
      (by decide) (by decide)⟩

/-- C4 counterexample: if the first login exchange returned the (falsy)
empty-string token, a second call 50 ms later — with
`now < tokenExpiry = 82800000` — contacts the backend again: two
sequential calls in the validity window perform two login exchanges, and
the cached token is not served although `now < expiresAt`. -/
theorem emptyTokenRetriggersLogin :
    (getAuthToken (Except.ok (some "")) 0 ⟨none, none⟩).2.2 = 1 ∧
    (getAuthToken (Except.ok (some "")) 0 ⟨none, none⟩).2.1 =
      ⟨some "", some 82800000⟩ ∧
    50 < 82800000 ∧
    (getAuthToken (Except.ok (some "tok2")) 50
      ⟨some "", some 82800000⟩).2.2 = 1 := by
  refine ⟨rfl, by decide, by decide, by decide⟩

/-- C8 (amended): when the login HTTP exchange raises (network error or
non-2xx), `getAuthToken` raises the authentication error, leaves the
cache state unchanged, and performs exactly one exchange attempt (no
looping); a 2xx login response whose body lacks the token field is,
however, not treated as a failure. -/
theorem getTokenLoginFailure (now : ℕ) (s : AuthState)
    (hmiss : cacheHit s now = false) :
    getAuthToken (Except.error ()) now s = (Except.error (), s, 1) := by
  simp [getAuthToken, hmiss]

/-- C8 witness: a cold-cache call whose login raises returns the error,
keeps the empty state, and made exactly one attempt. -/
theorem getTokenLoginFailure_witness :
    getAuthToken (Except.error ()) 0 ⟨none, none⟩ =
      (Except.error (), ⟨none, none⟩, 1) :=
  getTokenLoginFailure 0 ⟨none, none⟩ rfl

/-- C8 counterexample: a 2xx login response with a malformed body (no
`token` field, modelled as `Except.ok none`) does not raise — the call
returns the undefined token — and the cache state is updated (expiry set
to 23h), contradicting "raises an authentication error and leaves the
credential cache state unchanged". -/
theorem malformedLoginBodyNotRejected :
    (getAuthToken (Except.ok none) 0 ⟨none, none⟩).1 = Except.ok none ∧
    (getAuthToken (Except.ok none) 0 ⟨none, none⟩).2.1 =
      ⟨none, some 82800000⟩ := by
  refine ⟨rfl, by decide⟩

/-- C5: on the vector path the renaming works (a backend product with
`priceEstimated: 2.5` yields `estimatedPrice: 2.5` and the normalized
`Product` structure has no `priceEstimated` field at all); but on the
literal fallback path the second mapping reads `priceEstimated` back off
the already-renamed intermediate objects, so the very same stub product
comes back with no `estimatedPrice` value — the price is dropped,
contradicting the claim (and the repository validation script, which
requires a numeric `estimatedPrice` on every product). -/
theorem fallbackPathDropsPrice :
    (searchProducts bVecPrice "X" 10).1.products.map Product.estimatedPrice =
      [some (5 / 2)] ∧
    (searchProducts bFallback "X" 10).1.products.map Product.code =
      [some 12345] ∧
    (searchProducts bFallback "X" 10).1.products.map Product.estimatedPrice =
      [none] ∧
    (searchProducts bFallback "X" 10).1.totalFound = 1 := by
  refine ⟨rfl, rfl, rfl, rfl⟩

/-- C6 (amended): on a vector-search response, `vectorSearchProducts`
passes `success` and `cacheInfo` through unmodified and passes a present
`totalFound` value through; it passes a present non-zero `threshold`
through, but substitutes the requested threshold both when the backend
omits the threshold and when the backend reports the (falsy) threshold
`0`. -/
theorem vectorPassthroughPolicy (b : Backend) (q : String) (l : ℕ) (t : ℚ)
    (r : VectorResp) (hr : b.vectorSearch q l (some t) = Except.ok r) :
    (vectorSearchProducts b q l t).1.success = r.success ∧
    (∀ n, r.totalFound = some n →
      (vectorSearchProducts b q l t).1.totalFound = n) ∧
    (vectorSearchProducts b q l t).1.cacheInfo = r.cacheInfo ∧
    (∀ th, r.threshold = some th → th ≠ 0 →
      (vectorSearchProducts b q l t).1.threshold = some th) ∧
    ((r.threshold = none ∨ r.threshold = some 0) →
      (vectorSearchProducts b q l t).1.threshold = some t) := by
  unfold vectorSearchProducts
  rw [hr]
  refine ⟨rfl, ?_, rfl, ?_, ?_⟩
  · intro n hn
    simp only [hn, natOr]
    split
    · omega
    · rfl
  · intro th hth hne
    simp [hth, qOr, hne]
  · rintro (hth | hth) <;> simp [hth, qOr]

/-- C6 witness: a fully-populated diagnostic vector response is passed
through field by field (with the non-zero backend threshold kept). -/
theorem vectorPassthroughPolicy_witness :
    (vectorSearchProducts bDiag "q" 10 (7 / 10)).1.success = true ∧
    (vectorSearchProducts bDiag "q" 10 (7 / 10)).1.totalFound = 2 ∧
    (vectorSearchProducts bDiag "q" 10 (7 / 10)).1.cacheInfo =
      some ⟨true, 5⟩ ∧
    (vectorSearchProducts bDiag "q" 10 (7 / 10)).1.threshold =
      some (1 / 2) :=
  ⟨(vectorPassthroughPolicy bDiag "q" 10 (7 / 10) _ rfl).1,
   (vectorPassthroughPolicy bDiag "q" 10 (7 / 10) _ rfl).2.1 2 rfl,
   (vectorPassthroughPolicy bDiag "q" 10 (7 / 10) _ rfl).2.2.1,
   (vectorPassthroughPolicy bDiag "q" 10 (7 / 10) _ rfl).2.2.2.1
      (1 / 2) rfl (by norm_num)⟩

/-- C6 counterexample: a backend response that reports `threshold: 0` is
not passed through unmodified — the requested threshold 0.7 is
substituted even though the backend did not omit the field. -/
theorem thresholdZeroOverridden :
    (∃ r, bThreshZero.vectorSearch "q" 10 (some (7 / 10)) = Except.ok r ∧
      r.threshold = some 0) ∧
    (vectorSearchProducts bThreshZero "q" 10 (7 / 10)).1.threshold =
      some (7 / 10) ∧
    (7 : ℚ) / 10 ≠ 0 := by
  refine ⟨⟨_, rfl, rfl⟩, ?_, by norm_num⟩
  show some (qOr (some 0) (7 / 10)) = some (7 / 10)
  simp [qOr]

/-- C7 (amended): for any non-empty query and `limit ≥ 1`,
`searchProducts` returns at most `limit` products provided the backend
itself honors the forwarded `limit` parameter (returns at most `limit`
products on whichever endpoint answers); the code performs no client-side
truncation. -/
theorem literalSearchLimitWhenBackendHonors (b : Backend) (q : String)
    (l : ℕ) (hq : q ≠ "") (hl1 : 1 ≤ l)
    (hv : ∀ r, b.vectorSearch q l none = Except.ok r →
      (r.products.getD []).length ≤ l)
    (hp : ∀ ps, b.listProducts q l = Except.ok ps → ps.length ≤ l) :
    (searchProducts b q l).1.products.length ≤ l := by
  unfold searchProducts
  cases hvv : b.vectorSearch q l none with
  | error f => simp [failEnvelope]
  | ok r =>
      by_cases hc : fallbackCond r = true
      · cases hll : b.listProducts q l with
        | error f => simp [hc, hll, failEnvelope]
        | ok ps =>
            simp only [hc, if_true, hll]
            by_cases hlen : ps.length > 0
            · simpa [hlen, finishSearch] using hp ps hll
            · simpa [hlen, finishSearch] using hv r hvv
      · simpa [hc, finishSearch] using hv r hvv

/-- C7 witness: with a backend returning a single product for
`limit = 10`, the result respects the limit. -/
theorem literalSearchLimit_witness :
    (searchProducts bVecPrice "seringa" 10).1.products.length ≤ 10 :=
  literalSearchLimitWhenBackendHonors bVecPrice "seringa" 10 (by decide)
    (by decide)
    (fun r hr => by cases hr; decide)
    (fun ps hps => by cases hps; decide)

/-- C7 counterexample: with `limit = 1` and a backend whose vector
response contains two products, `searchProducts` returns both — the claim
fails for this backend response because no client-side truncation is
performed. -/
theorem limitNotEnforcedClientSide :
    "seringa" ≠ "" ∧ 1 ≤ 1 ∧
    ¬ (searchProducts bOverLimit "seringa" 1).1.products.length ≤ 1 := by
  refine ⟨by decide, by decide, by decide⟩

/-- C9: dispatching any tool name other than the two declared operations
produces the error-flagged output payload `{success: false, error:
"Unknown tool: <name>"}` with `isError` set — the thrown unknown-tool
error is caught and re-encoded by the handler itself (the handler is a
total function: no input escapes it). -/
theorem unknownToolErrorFlagged (b : Backend) (req : ToolRequest)
    (h1 : req.name ≠ "products.search")
    (h2 : req.name ≠ "products.vectorSearch") :
    handleToolCall b req =
      { payload := errPayload ("Unknown tool: " ++ req.name),
        isError := true } ∧
    (handleToolCall b req).payload.success = false ∧
    (handleToolCall b req).payload.error =
      some ("Unknown tool: " ++ req.name) := by
  have h : handleToolCall b req =
      { payload := errPayload ("Unknown tool: " ++ req.name),
        isError := true } := by
    rw [handleToolCall, if_neg h1, if_neg h2]
  exact ⟨h, by rw [h]; rfl, by rw [h]; rfl⟩

/-- C9 witness: dispatching `products.unknown` yields the error-flagged
output, not a crash. -/
theorem unknownToolErrorFlagged_witness :
    handleToolCall bFail ⟨"products.unknown", "x", none, none⟩ =
      { payload := errPayload ("Unknown tool: " ++ "products.unknown"),
        isError := true } ∧
    (handleToolCall bFail
        ⟨"products.unknown", "x", none, none⟩).payload.success = false ∧
    (handleToolCall bFail
        ⟨"products.unknown", "x", none, none⟩).payload.error =
      some ("Unknown tool: " ++ "products.unknown") :=
  unknownToolErrorFlagged bFail ⟨"products.unknown", "x", none, none⟩
    (by decide) (by decide)

end Ulbra
